import Mathlib

/-!
Verification of the Point-Map Renderer (`script.py`, function
`plot_points_on_map`).

The source is a single Python function operating on point records given as
dictionaries.  We embed it shallowly:

* Python dictionary values that can occur in a point record are modelled by
  `Value` (a float, a string, or `None`); a point record (`PointSpec`) holds
  one `Option Value` per key the source reads, `Option.none` meaning the key
  is absent (`p.get(k)` then yields Python `None`, i.e. `Value.none`).
* Python floats are modelled as exact rationals (`ℚ`).
* Raised exceptions (`ValueError`, `KeyError`, `TypeError`) are modelled by
  `Except Err`; the spec's `InvalidInput` taxonomy names exactly these
  raised-and-propagated errors.
* The calls into the folium library and the host (map creation, circle
  drawing, `fit_bounds`, `save`, `webbrowser.open`) are recorded in a
  `MapDoc` / `RenderOutput` value: the error case of `Except` therefore
  carries no drawing, no saved file and no browser request.
-/

namespace Script

/-- A Python value that can appear in a point-spec dictionary:
a float (modelled exactly as a rational), a string, or `None`. -/
inductive Value where
  | num (q : ℚ)
  | str (s : String)
  | none
deriving DecidableEq

/-- One input point record (`PointSpec = Mapping[str, Union[float, str, None]]`).
Each field is one key of the dictionary; `Option.none` means the key is
absent, `some Value.none` means the key is present with value `None`. -/
structure PointSpec where
  lat : Option Value
  lon : Option Value
  radius_m : Option Value
  color : Option Value
  fill_color : Option Value
  fill_opacity : Option Value
  tooltip : Option Value
deriving DecidableEq

/-- The keyword arguments of `plot_points_on_map`. -/
structure Config where
  default_radius_m : ℚ
  default_color : String
  default_fill_color : Option String
  default_fill_opacity : ℚ
  weight : ℤ
  tiles : String
  outfile : String
  initial_zoom : ℤ
deriving DecidableEq

/-- The Python default keyword arguments of `plot_points_on_map`. -/
def defaultConfig : Config :=
  { default_radius_m := 10
    default_color := "#3388ff"
    default_fill_color := Option.none
    default_fill_opacity := mkRat 1 5
    weight := 2
    tiles := "OpenStreetMap"
    outfile := "map.html"
    initial_zoom := 17 }

/-- Python truthiness of a `Value`: `0.0`, `""` and `None` are falsy. -/
def truthy : Value → Bool
  | Value.num q => q ≠ 0
  | Value.str s => s ≠ ""
  | Value.none => false

/-- Python `a or b`: returns `a` when `a` is truthy, else `b`. -/
def pyOr (a b : Value) : Value := if truthy a then a else b

/-- Python `str(v)`.  For strings it is the identity and for `None` it is
`"None"`; for floats we use the rational's decimal-free rendering, an
abstraction of CPython float formatting (no claim touches `str` of a float). -/
def pyStr : Value → String
  | Value.num q => toString q
  | Value.str s => s
  | Value.none => "None"

/-- `Optional[str]` config value seen as a Python value (for the `or` chain
on line 39 of the source). -/
def optValue : Option String → Value
  | Option.none => Value.none
  | some s => Value.str s

/-- Value of a run of decimal digits, with accumulator; fails on the first
non-digit character. -/
def digitsVal : ℕ → List Char → Option ℕ
  | acc, [] => some acc
  | acc, c :: cs =>
    if c.isDigit then digitsVal (10 * acc + (c.toNat - 48)) cs else Option.none

/-- Split a character list at the first dot, if any. -/
def splitDot : List Char → List Char × Option (List Char)
  | [] => ([], Option.none)
  | c :: cs =>
    if c = '.' then ([], some cs)
    else
      let r := splitDot cs
      (c :: r.1, r.2)

/-- Unsigned decimal literal: digits, optionally with one dot somewhere
(`"5"`, `"5."`, `".5"`, `"5.25"`); anything else fails. -/
def parseUnsignedFloat (cs : List Char) : Option ℚ :=
  match splitDot cs with
  | (a, Option.none) =>
    if a = [] then Option.none
    else (digitsVal 0 a).map (fun n => mkRat (n : ℤ) 1)
  | (a, some b) =>
    if a = [] ∧ b = [] then Option.none
    else
      match digitsVal 0 a, digitsVal 0 b with
      | some n, some m => some (mkRat ((n * 10 ^ b.length + m : ℕ) : ℤ) (10 ^ b.length))
      | _, _ => Option.none

/-- Python `float(s)` on a string: an (optionally signed) decimal literal.
This abstracts CPython's float grammar (no exponents, `inf`/`nan` or
surrounding whitespace, none of which occur in the repository's data);
what the claims exercise is that well-formed decimals convert and
non-numeric strings raise. -/
def parsePyFloat (s : String) : Option ℚ :=
  match s.toList with
  | '-' :: rest => (parseUnsignedFloat rest).map (fun q => -q)
  | '+' :: rest => parseUnsignedFloat rest
  | cs => parseUnsignedFloat cs

/-- Equality of `Except` results is decidable (used to evaluate the embedded
program on concrete inputs). -/
instance instDecEqExcept {ε α : Type} [DecidableEq ε] [DecidableEq α] :
    DecidableEq (Except ε α) := fun x y =>
  match x, y with
  | Except.error a, Except.error b =>
    if h : a = b then Decidable.isTrue (by rw [h])
    else Decidable.isFalse (by simp [h])
  | Except.error _, Except.ok _ => Decidable.isFalse (by simp)
  | Except.ok _, Except.error _ => Decidable.isFalse (by simp)
  | Except.ok a, Except.ok b =>
    if h : a = b then Decidable.isTrue (by rw [h])
    else Decidable.isFalse (by simp [h])

/-- The errors `plot_points_on_map` can raise: the explicit
`ValueError` for an empty input, `KeyError` from `p["lat"]` / `p["lon"]`,
`ValueError` from `float()` on a non-numeric string, and `TypeError` from
`float(None)`.  The spec's `InvalidInput` taxonomy covers all of them. -/
inductive Err where
  | valueError (msg : String)
  | keyError (k : String)
  | typeError (msg : String)
deriving DecidableEq

/-- Python `float(v)` on a point-spec value: floats pass through, strings are
parsed (raising `ValueError` when non-numeric), `None` raises `TypeError`. -/
def pyFloatE : Value → Except Err ℚ
  | Value.num q => Except.ok q
  | Value.str s =>
    match parsePyFloat s with
    | some q => Except.ok q
    | Option.none => Except.error (Err.valueError "could not convert string to float")
  | Value.none => Except.error (Err.typeError "float() argument must be a string or a real number, not NoneType")

/-- `float(p["lat"])`: `KeyError` when the key is absent, then `float`. -/
def latF (p : PointSpec) : Except Err ℚ :=
  match p.lat with
  | Option.none => Except.error (Err.keyError "lat")
  | some v => pyFloatE v

/-- `float(p["lon"])`: `KeyError` when the key is absent, then `float`. -/
def lonF (p : PointSpec) : Except Err ℚ :=
  match p.lon with
  | Option.none => Except.error (Err.keyError "lon")
  | some v => pyFloatE v

/-- One drawn `folium.Circle`, with its attached tooltip child (if any). -/
structure Circle where
  location : ℚ × ℚ
  radius : ℚ
  color : String
  weight : ℤ
  fill : Bool
  fill_color : String
  fill_opacity : ℚ
  opacity : ℚ
  tooltip : Option String
deriving DecidableEq

/-- One `fit_bounds` instruction issued to the map. -/
structure FitCall where
  sw : ℚ × ℚ
  ne : ℚ × ℚ
  padding : ℤ × ℤ
deriving DecidableEq

/-- The folium map document: creation arguments plus the drawing commands
issued to it, in order. -/
structure MapDoc where
  location : ℚ × ℚ
  zoom_start : ℤ
  tiles : String
  circles : List Circle
  fit_calls : List FitCall
deriving DecidableEq

/-- The body of the per-point loop (source lines 35–54): resolve the
point's lat/lon, radius, colours, opacity and tooltip and build the circle.
Failing `float()` conversions happen in source order
(`lat`, `lon`, `radius_m`, `fill_opacity`). -/
def processPoint (cfg : Config) (p : PointSpec) : Except Err Circle :=
  match latF p with
  | Except.error e => Except.error e
  | Except.ok lat =>
    match lonF p with
    | Except.error e => Except.error e
    | Except.ok lon =>
      match pyFloatE (p.radius_m.getD (Value.num cfg.default_radius_m)) with
      | Except.error e => Except.error e
      | Except.ok radius_m =>
        let color := pyStr (p.color.getD (Value.str cfg.default_color))
        let fill_color := pyStr (pyOr (p.fill_color.getD Value.none)
          (pyOr (p.color.getD Value.none)
            (pyOr (optValue cfg.default_fill_color) (Value.str cfg.default_color))))
        match pyFloatE (p.fill_opacity.getD (Value.num cfg.default_fill_opacity)) with
        | Except.error e => Except.error e
        | Except.ok fill_opacity =>
          let tooltip := p.tooltip.getD Value.none
          Except.ok
            { location := (lat, lon)
              radius := radius_m
              color := color
              weight := cfg.weight
              fill := true
              fill_color := fill_color
              fill_opacity := fill_opacity
              opacity := 1
              tooltip := if truthy tooltip then some (pyStr tooltip) else Option.none }

/-- `sum(float(p[k]) for p in pts)`: left-to-right, the first failing
conversion raises. -/
def sumExcept (f : PointSpec → Except Err ℚ) : List PointSpec → Except Err ℚ
  | [] => Except.ok 0
  | p :: rest =>
    match f p with
    | Except.error e => Except.error e
    | Except.ok x =>
      match sumExcept f rest with
      | Except.error e => Except.error e
      | Except.ok s => Except.ok (x + s)

/-- The caller-visible store threaded through the loop: the input list and
configuration (which the claims say are never mutated) together with the
renderer-local map document and the `lats` / `lons` accumulators, the only
things the loop body assigns to. -/
structure Store where
  pts : List PointSpec
  cfg : Config
  doc : MapDoc
  lats : List ℚ
  lons : List ℚ
deriving DecidableEq

/-- The per-point loop (source lines 34–58) in store-passing style: each
iteration draws one circle into the document and appends to `lats` and
`lons`; an exception stops the loop, leaving the store as it was at the
start of the failing iteration. -/
def runLoop : List PointSpec → Store → Store × Option Err
  | [], s => (s, Option.none)
  | p :: rest, s =>
    match processPoint s.cfg p with
    | Except.error e => (s, some e)
    | Except.ok c =>
      runLoop rest
        { s with
          doc := { s.doc with circles := s.doc.circles ++ [c] }
          lats := s.lats ++ [c.location.1]
          lons := s.lons ++ [c.location.2] }

/-- Python `min` over a non-empty list (the `[]` case is unreachable behind
the source's non-emptiness guard). -/
def listMin : List ℚ → ℚ
  | [] => 0
  | x :: xs => xs.foldl min x

/-- Python `max` over a non-empty list. -/
def listMax : List ℚ → ℚ
  | [] => 0
  | x :: xs => xs.foldl max x

/-- The result of a successful call: the final map document, the file it was
saved to, and the path the browser was asked to open. -/
structure RenderOutput where
  doc : MapDoc
  savedTo : String
  openedInBrowser : String
deriving DecidableEq

/-- `plot_points_on_map` (source lines 7–71).  An `Except.error` result is a
raised, uncaught exception: no `RenderOutput` exists, so no file is saved
and no browser-open request is made. -/
def render (points : List PointSpec) (cfg : Config) : Except Err RenderOutput :=
  let pts := points
  if pts.isEmpty then
    Except.error (Err.valueError "`points` must be a non-empty iterable of point specs.")
  else
    match sumExcept latF pts with
    | Except.error e => Except.error e
    | Except.ok sLat =>
      match sumExcept lonF pts with
      | Except.error e => Except.error e
      | Except.ok sLon =>
        let avg_lat := sLat / (pts.length : ℚ)
        let avg_lon := sLon / (pts.length : ℚ)
        let m : MapDoc :=
          { location := (avg_lat, avg_lon)
            zoom_start := cfg.initial_zoom
            tiles := cfg.tiles
            circles := []
            fit_calls := [] }
        match runLoop pts { pts := pts, cfg := cfg, doc := m, lats := [], lons := [] } with
        | (_, some e) => Except.error e
        | (s, Option.none) =>
          let lats := s.lats
          let lons := s.lons
          let m := s.doc
          let m :=
            if lats ≠ [] ∧ lons ≠ [] then
              let sw := (listMin lats, listMin lons)
              let ne := (listMax lats, listMax lons)
              if sw ≠ ne then
                { m with fit_calls := m.fit_calls ++ [{ sw := sw, ne := ne, padding := (10, 10) }] }
              else m
            else m
          Except.ok { doc := m, savedTo := cfg.outfile, openedInBrowser := cfg.outfile }

/-! ### Structural lemmas about the embedded operations -/

/-- Inversion of a successful loop body: each field of the drawn circle is
the corresponding resolution from the source. -/
theorem processPoint_ok_inv (cfg : Config) (p : PointSpec) (c : Circle)
    (h : processPoint cfg p = Except.ok c) :
    latF p = Except.ok c.location.1 ∧
    lonF p = Except.ok c.location.2 ∧
    pyFloatE (p.radius_m.getD (Value.num cfg.default_radius_m)) = Except.ok c.radius ∧
    pyFloatE (p.fill_opacity.getD (Value.num cfg.default_fill_opacity)) = Except.ok c.fill_opacity ∧
    c.color = pyStr (p.color.getD (Value.str cfg.default_color)) ∧
    c.fill_color = pyStr (pyOr (p.fill_color.getD Value.none)
      (pyOr (p.color.getD Value.none)
        (pyOr (optValue cfg.default_fill_color) (Value.str cfg.default_color)))) ∧
    c.weight = cfg.weight ∧ c.fill = true ∧ c.opacity = 1 ∧
    c.tooltip = (if truthy (p.tooltip.getD Value.none)
                 then some (pyStr (p.tooltip.getD Value.none)) else Option.none) := by
  unfold processPoint at h
  split at h
  · simp at h
  · split at h
    · simp at h
    · split at h
      · simp at h
      · split at h
        · simp at h
        · rename_i lat hlat lon hlon radius_m hrad fill_opacity hop
          cases h
          simp_all

/-- A pointwise-successful conversion sums to the sum of the converted
values. -/
theorem sumExcept_ok_map (f : PointSpec → Except Err ℚ) (g : PointSpec → ℚ) :
    ∀ pts : List PointSpec, (∀ p ∈ pts, f p = Except.ok (g p)) →
      sumExcept f pts = Except.ok ((pts.map g).sum)
  | [], _ => by simp [sumExcept]
  | p :: rest, h => by
    have hp : f p = Except.ok (g p) := h p (List.mem_cons_self p rest)
    have hr := sumExcept_ok_map f g rest (fun q hq => h q (List.mem_cons_of_mem p hq))
    simp [sumExcept, hp, hr]

/-- If the sum succeeds, every element's conversion succeeded. -/
theorem sumExcept_ok_elem (f : PointSpec → Except Err ℚ) :
    ∀ pts : List PointSpec, ∀ s : ℚ, sumExcept f pts = Except.ok s →
      ∀ p ∈ pts, ∃ q : ℚ, f p = Except.ok q := by
  intro pts
  induction pts with
  | nil => intro s _ p hp; simp at hp
  | cons a rest ih =>
    intro s hs p hp
    unfold sumExcept at hs
    rcases hfa : f a with e | x
    · rw [hfa] at hs; simp at hs
    · rw [hfa] at hs
      rcases hrest : sumExcept f rest with e | y
      · rw [hrest] at hs; simp at hs
      · rcases List.mem_cons.mp hp with rfl | hp2
        · exact ⟨x, hfa⟩
        · exact ih y hrest p hp2

/-- The loop never writes to the input list or the configuration, whether it
runs to completion or stops at a raised exception. -/
theorem runLoop_frame : ∀ (q : List PointSpec) (s : Store),
    (runLoop q s).1.pts = s.pts ∧ (runLoop q s).1.cfg = s.cfg
  | [], s => by simp [runLoop]
  | p :: rest, s => by
    unfold runLoop
    rcases hc : processPoint s.cfg p with e | c
    · simp
    · simpa using runLoop_frame rest _

/-- Inversion of a completed loop: there is a list of drawn circles, one per
point, and the final store extends the initial one by exactly those circles
and their coordinates. -/
theorem runLoop_none_inv : ∀ (q : List PointSpec) (s s2 : Store),
    runLoop q s = (s2, Option.none) →
    ∃ cs : List Circle,
      List.Forall₂ (fun p c => processPoint s.cfg p = Except.ok c) q cs ∧
      s2 = { s with
              doc := { s.doc with circles := s.doc.circles ++ cs }
              lats := s.lats ++ cs.map (fun c => c.location.1)
              lons := s.lons ++ cs.map (fun c => c.location.2) }
  | [], s, s2, h => by
    refine ⟨[], List.Forall₂.nil, ?_⟩
    simp [runLoop] at h
    simp [← h]
  | p :: rest, s, s2, h => by
    unfold runLoop at h
    rcases hc : processPoint s.cfg p with e | c
    · rw [hc] at h; simp at h
    · rw [hc] at h
      obtain ⟨cs, hF, hs2⟩ := runLoop_none_inv rest _ s2 h
      refine ⟨c :: cs, ?_, ?_⟩
      · exact List.Forall₂.cons hc hF
      · rw [hs2]
        simp

/-- `foldl min` is bounded by its initial accumulator. -/
theorem foldl_min_le_init : ∀ (xs : List ℚ) (a : ℚ), xs.foldl min a ≤ a
  | [], a => le_refl a
  | b :: xs, a => le_trans (foldl_min_le_init xs (min a b)) (min_le_left a b)

/-- `foldl min` is bounded by every list element. -/
theorem foldl_min_le_mem : ∀ (xs : List ℚ) (a x : ℚ), x ∈ xs → xs.foldl min a ≤ x
  | b :: xs, a, x, h => by
    rcases List.mem_cons.mp h with rfl | h2
    · exact le_trans (foldl_min_le_init xs (min a x)) (min_le_right a x)
    · exact foldl_min_le_mem xs (min a b) x h2

/-- `min(xs)` (Python) is a lower bound of a non-empty list. -/
theorem listMin_le (xs : List ℚ) (x : ℚ) (hx : x ∈ xs) : listMin xs ≤ x := by
  cases xs with
  | nil => simp at hx
  | cons a ys =>
    rcases List.mem_cons.mp hx with rfl | h2
    · exact foldl_min_le_init ys x
    · exact foldl_min_le_mem ys a x h2

/-- The initial accumulator bounds `foldl max` from below. -/
theorem init_le_foldl_max : ∀ (xs : List ℚ) (a : ℚ), a ≤ xs.foldl max a
  | [], a => le_refl a
  | b :: xs, a => le_trans (le_max_left a b) (init_le_foldl_max xs (max a b))

/-- Every list element bounds `foldl max` from below. -/
theorem mem_le_foldl_max : ∀ (xs : List ℚ) (a x : ℚ), x ∈ xs → x ≤ xs.foldl max a
  | b :: xs, a, x, h => by
    rcases List.mem_cons.mp h with rfl | h2
    · exact le_trans (le_max_right a x) (init_le_foldl_max xs (max a x))
    · exact mem_le_foldl_max xs (max a b) x h2

/-- `max(xs)` (Python) is an upper bound of a non-empty list. -/
theorem le_listMax (xs : List ℚ) (x : ℚ) (hx : x ∈ xs) : x ≤ listMax xs := by
  cases xs with
  | nil => simp at hx
  | cons a ys =>
    rcases List.mem_cons.mp hx with rfl | h2
    · exact init_le_foldl_max ys x
    · exact mem_le_foldl_max ys a x h2

/-- Folding `min` over a list of copies of the accumulator is the identity. -/
theorem foldl_min_all_eq : ∀ (xs : List ℚ) (a : ℚ), (∀ x ∈ xs, x = a) → xs.foldl min a = a
  | [], _, _ => rfl
  | b :: xs, a, h => by
    have hb : b = a := h b (List.mem_cons_self b xs)
    subst hb
    rw [List.foldl_cons, min_self]
    exact foldl_min_all_eq xs b (fun x hx => h x (List.mem_cons_of_mem b hx))

/-- Folding `max` over a list of copies of the accumulator is the identity. -/
theorem foldl_max_all_eq : ∀ (xs : List ℚ) (a : ℚ), (∀ x ∈ xs, x = a) → xs.foldl max a = a
  | [], _, _ => rfl
  | b :: xs, a, h => by
    have hb : b = a := h b (List.mem_cons_self b xs)
    subst hb
    rw [List.foldl_cons, max_self]
    exact foldl_max_all_eq xs b (fun x hx => h x (List.mem_cons_of_mem b hx))

/-- `min` of a constant non-empty list. -/
theorem listMin_all_eq (xs : List ℚ) (c : ℚ) (hne : xs ≠ []) (h : ∀ x ∈ xs, x = c) :
    listMin xs = c := by
  cases xs with
  | nil => exact absurd rfl hne
  | cons a ys =>
    have ha : a = c := h a (List.mem_cons_self a ys)
    subst ha
    exact foldl_min_all_eq ys a (fun x hx => h x (List.mem_cons_of_mem a hx))

/-- `max` of a constant non-empty list. -/
theorem listMax_all_eq (xs : List ℚ) (c : ℚ) (hne : xs ≠ []) (h : ∀ x ∈ xs, x = c) :
    listMax xs = c := by
  cases xs with
  | nil => exact absurd rfl hne
  | cons a ys =>
    have ha : a = c := h a (List.mem_cons_self a ys)
    subst ha
    exact foldl_max_all_eq ys a (fun x hx => h x (List.mem_cons_of_mem a hx))

/-- The latitudes recorded by the loop are the latitudes of the points. -/
theorem forall2_lats (cfg : Config) (g : PointSpec → ℚ) :
    ∀ (pts : List PointSpec) (cs : List Circle),
      List.Forall₂ (fun p c => processPoint cfg p = Except.ok c) pts cs →
      (∀ p ∈ pts, latF p = Except.ok (g p)) →
      cs.map (fun c => c.location.1) = pts.map g := by
  intro pts cs hF
  induction hF with
  | nil => intro _; rfl
  | cons hpc _ ih =>
    rename_i p c ps zs _
    intro hg
    have h1 := (processPoint_ok_inv cfg p c hpc).1
    have h2 := hg p (List.mem_cons_self p ps)
    rw [h1] at h2
    have : c.location.1 = g p := by injection h2
    simp only [List.map_cons, this]
    rw [ih (fun q hq => hg q (List.mem_cons_of_mem p hq))]

/-- The longitudes recorded by the loop are the longitudes of the points. -/
theorem forall2_lons (cfg : Config) (g : PointSpec → ℚ) :
    ∀ (pts : List PointSpec) (cs : List Circle),
      List.Forall₂ (fun p c => processPoint cfg p = Except.ok c) pts cs →
      (∀ p ∈ pts, lonF p = Except.ok (g p)) →
      cs.map (fun c => c.location.2) = pts.map g := by
  intro pts cs hF
  induction hF with
  | nil => intro _; rfl
  | cons hpc _ ih =>
    rename_i p c ps zs _
    intro hg
    have h1 := (processPoint_ok_inv cfg p c hpc).2.1
    have h2 := hg p (List.mem_cons_self p ps)
    rw [h1] at h2
    have : c.location.2 = g p := by injection h2
    simp only [List.map_cons, this]
    rw [ih (fun q hq => hg q (List.mem_cons_of_mem p hq))]

/-- Inversion of a successful render: the input was non-empty, every
coordinate sum and every per-point resolution succeeded, and the output is
exactly the document built by the source: mean center, configured zoom and
tiles, the drawn circles in input order, the bounds fit exactly when the
bounding box is non-degenerate, and the configured output path saved and
opened. -/
theorem render_ok_inv (pts : List PointSpec) (cfg : Config) (out : RenderOutput)
    (h : render pts cfg = Except.ok out) :
    pts ≠ [] ∧
    ∃ (cs : List Circle) (sLat sLon : ℚ),
      List.Forall₂ (fun p c => processPoint cfg p = Except.ok c) pts cs ∧
      sumExcept latF pts = Except.ok sLat ∧
      sumExcept lonF pts = Except.ok sLon ∧
      out =
        { doc :=
            { location := (sLat / (pts.length : ℚ), sLon / (pts.length : ℚ))
              zoom_start := cfg.initial_zoom
              tiles := cfg.tiles
              circles := cs
              fit_calls :=
                if (listMin (cs.map fun c => c.location.1), listMin (cs.map fun c => c.location.2)) ≠
                   (listMax (cs.map fun c => c.location.1), listMax (cs.map fun c => c.location.2))
                then [{ sw := (listMin (cs.map fun c => c.location.1), listMin (cs.map fun c => c.location.2))
                        ne := (listMax (cs.map fun c => c.location.1), listMax (cs.map fun c => c.location.2))
                        padding := (10, 10) }]
                else [] }
          savedTo := cfg.outfile
          openedInBrowser := cfg.outfile } := by
  simp only [render] at h
  split at h
  · simp at h
  · rename_i hE
    have hne : pts ≠ [] := by
      intro hnil
      subst hnil
      exact hE rfl
    refine ⟨hne, ?_⟩
    split at h
    · simp at h
    · rename_i sLat hA
      split at h
      · simp at h
      · rename_i sLon hB
        split at h
        · simp at h
        · rename_i s2 hR
          obtain ⟨cs, hF0, hs2⟩ := runLoop_none_inv pts _ s2 hR
          have hF : List.Forall₂ (fun p c => processPoint cfg p = Except.ok c) pts cs := hF0
          have hcs : cs ≠ [] := by
            intro hcsnil
            subst hcsnil
            have := hF.length_eq
            simp at this
            exact hne this
          refine ⟨cs, sLat, sLon, hF, hA, hB, ?_⟩
          subst hs2
          injection h with h2
          subst h2
          have hlats : ¬(cs.map fun c => c.location.1) = [] := by
            simpa using hcs
          have hlons : ¬(cs.map fun c => c.location.2) = [] := by
            simpa using hcs
          simp only [List.nil_append]
          rw [if_pos ⟨hlats, hlons⟩]
          by_cases hsw :
              (listMin (cs.map fun c => c.location.1), listMin (cs.map fun c => c.location.2)) ≠
              (listMax (cs.map fun c => c.location.1), listMax (cs.map fun c => c.location.2))
          · rw [if_pos hsw, if_pos hsw]
          · rw [if_neg hsw, if_neg hsw]

/-! ### Concrete inputs used to exercise the embedded program -/

/-- A minimal valid point: `lat` 1, `lon` 2, every optional key absent. -/
def pMinimal12 : PointSpec :=
  { lat := some (Value.num 1), lon := some (Value.num 2), radius_m := Option.none,
    color := Option.none, fill_color := Option.none, fill_opacity := Option.none,
    tooltip := Option.none }

/-- A minimal valid point: `lat` 3, `lon` 6, every optional key absent. -/
def pMinimal36 : PointSpec :=
  { lat := some (Value.num 3), lon := some (Value.num 6), radius_m := Option.none,
    color := Option.none, fill_color := Option.none, fill_opacity := Option.none,
    tooltip := Option.none }

/-- A valid point whose `color` key is present with the empty string and whose
`fill_color` key is absent. -/
def pEmptyColor : PointSpec :=
  { lat := some (Value.num 0), lon := some (Value.num 0), radius_m := Option.none,
    color := some (Value.str ""), fill_color := Option.none, fill_opacity := Option.none,
    tooltip := Option.none }

/-- A valid point with `fill_color` present and non-empty. -/
def pFillRed : PointSpec :=
  { lat := some (Value.num 0), lon := some (Value.num 0), radius_m := Option.none,
    color := Option.none, fill_color := some (Value.str "red"), fill_opacity := Option.none,
    tooltip := Option.none }

/-- A valid point with tooltip `"X"`. -/
def pTooltipX : PointSpec :=
  { lat := some (Value.num 0), lon := some (Value.num 0), radius_m := Option.none,
    color := Option.none, fill_color := Option.none, fill_opacity := Option.none,
    tooltip := some (Value.str "X") }

/-- A point whose `lat` key is missing (its `lon` is fine). -/
def pNoLat : PointSpec :=
  { lat := Option.none, lon := some (Value.num 0), radius_m := Option.none,
    color := Option.none, fill_color := Option.none, fill_opacity := Option.none,
    tooltip := Option.none }

/-- A point with valid `lat`/`lon` whose `radius_m` key is present with value
`None`. -/
def pRadiusNone : PointSpec :=
  { lat := some (Value.num 1), lon := some (Value.num 2), radius_m := some Value.none,
    color := Option.none, fill_color := Option.none, fill_opacity := Option.none,
    tooltip := Option.none }

/-- Placeholder output used by `getOk` (never returned on the inputs we
evaluate). -/
def defOut : RenderOutput :=
  { doc := { location := (0, 0), zoom_start := 0, tiles := "", circles := [], fit_calls := [] },
    savedTo := "", openedInBrowser := "" }

/-- Placeholder circle used by `getOkC`. -/
def defCircle : Circle :=
  { location := (0, 0), radius := 0, color := "", weight := 0, fill := false,
    fill_color := "", fill_opacity := 0, opacity := 0, tooltip := Option.none }

/-- Extract the successful result of a render (default otherwise). -/
def getOk (x : Except Err RenderOutput) (d : RenderOutput) : RenderOutput :=
  match x with
  | Except.ok o => o
  | Except.error _ => d

/-- Extract the successfully built circle (default otherwise). -/
def getOkC (x : Except Err Circle) (d : Circle) : Circle :=
  match x with
  | Except.ok o => o
  | Except.error _ => d

/-- The numeric value of a point field that holds a float. -/
def numOf : Option Value → ℚ
  | some (Value.num q) => q
  | _ => 0

/-- A dictionary field that Python's `or` passes over: key absent, key present
with the empty string, or key present with `None`. -/
def fieldFalsy (f : Option Value) : Prop :=
  f = Option.none ∨ f = some (Value.str "") ∨ f = some Value.none

/-- A falsy field reads as a falsy Python value. -/
theorem fieldFalsy_truthy (f : Option Value) (h : fieldFalsy f) :
    truthy (f.getD Value.none) = false := by
  rcases h with h | h | h
  all_goals subst h
  all_goals simp [truthy]

/-- `or` skips a falsy operand. -/
theorem pyOr_falsy (a b : Value) (h : truthy a = false) : pyOr a b = b := by
  simp [pyOr, h]

/-- `or` returns a truthy operand. -/
theorem pyOr_truthy (a b : Value) (h : truthy a = true) : pyOr a b = a := by
  simp [pyOr, h]

/-! ### The claims -/

/-- C1 counterexample: the claim asserts that a point whose `color` is
present as the empty string (with `fill_color` absent) resolves its fill
color to that empty `color` value.  On `pEmptyColor` under the default
configuration the code resolves the fill color to `"#3388ff"`
(Python's `or` skips the empty string), not to `""`. -/
theorem c1_counterexample :
    (processPoint defaultConfig pEmptyColor).map Circle.fill_color = Except.ok "#3388ff" ∧
    "#3388ff" ≠ "" := ⟨by decide, by decide⟩

/-- C2: rendering an empty input collection fails with the `InvalidInput`
(`ValueError`) contract error.  The error result carries no map document, no
saved file and no browser-open request: none of these exist outside the
`Except.ok` constructor, so nothing is created before the failure. -/
theorem c2_empty_input_fails (cfg : Config) :
    render [] cfg =
      Except.error (Err.valueError "`points` must be a non-empty iterable of point specs.") :=
  rfl

/-- C9: one loop step after another, the renderer never writes to the input
point list or to the configuration: whatever store the loop starts from, and
whether it completes or stops at a raised error, the `pts` and `cfg`
components of the resulting store are untouched (the loop body only appends
to the map document and the local `lats`/`lons` accumulators — the source
contains no assignment into a point record or a keyword argument). -/
theorem c9_no_mutation (q ps : List PointSpec) (cfg : Config) (doc : MapDoc)
    (lats lons : List ℚ) :
    (runLoop q { pts := ps, cfg := cfg, doc := doc, lats := lats, lons := lons }).1.pts = ps ∧
    (runLoop q { pts := ps, cfg := cfg, doc := doc, lats := lats, lons := lons }).1.cfg = cfg :=
  runLoop_frame q _

/-- C10: a point with valid numeric `lat`/`lon` but `radius_m` present with
value `None` makes the render raise `TypeError` from `float(None)` instead of
substituting `default_radius_m`: `dict.get` falls back only on a missing key,
not on a key set to `None`. -/
theorem c10_none_radius_type_error :
    latF pRadiusNone = Except.ok 1 ∧ lonF pRadiusNone = Except.ok 2 ∧
    render [pRadiusNone] defaultConfig =
      Except.error
        (Err.typeError "float() argument must be a string or a real number, not NoneType") :=
  ⟨by decide, by decide, by decide⟩

/-- C1 (amended): the fill-color fallback chain is evaluated with Python
truthiness at every link, in this order: the point's own `fill_color` if
present and truthy (non-empty); else the point's own `color` if present and
truthy; else `config.default_fill_color` if set and non-empty; else
`config.default_color`.  In particular a `color` present as the empty string
does not resolve the fill color to it — it falls through to the defaults
(contrary to the original claim's final sentence). -/
theorem c1_fill_color_chain (cfg : Config) (p : PointSpec) (c : Circle)
    (h : processPoint cfg p = Except.ok c) :
    (∀ s : String, p.fill_color = some (Value.str s) → s ≠ "" → c.fill_color = s) ∧
    (∀ s : String, fieldFalsy p.fill_color → p.color = some (Value.str s) → s ≠ "" →
      c.fill_color = s) ∧
    (∀ d : String, fieldFalsy p.fill_color → fieldFalsy p.color →
      cfg.default_fill_color = some d → d ≠ "" → c.fill_color = d) ∧
    (fieldFalsy p.fill_color → fieldFalsy p.color →
      (cfg.default_fill_color = Option.none ∨ cfg.default_fill_color = some "") →
      c.fill_color = cfg.default_color) := by
  have hfc := (processPoint_ok_inv cfg p c h).2.2.2.2.2.1
  refine ⟨?_, ?_, ?_, ?_⟩
  · intro s hs hne
    rw [hfc, hs]
    simp [pyOr, truthy, pyStr, hne]
  · intro s hff hs hne
    rw [hfc, pyOr_falsy _ _ (fieldFalsy_truthy _ hff), hs]
    simp [pyOr, truthy, pyStr, hne]
  · intro d hff hcf hd hdne
    rw [hfc, pyOr_falsy _ _ (fieldFalsy_truthy _ hff),
        pyOr_falsy _ _ (fieldFalsy_truthy _ hcf), hd]
    simp [optValue, pyOr, truthy, pyStr, hdne]
  · intro hff hcf hdf
    rw [hfc, pyOr_falsy _ _ (fieldFalsy_truthy _ hff),
        pyOr_falsy _ _ (fieldFalsy_truthy _ hcf)]
    rcases hdf with hdf | hdf
    · rw [hdf]
      simp [optValue, pyOr, truthy, pyStr]
    · rw [hdf]
      simp [optValue, pyOr, truthy, pyStr]

/-- C1 witness: a point with a non-empty `fill_color` of `"red"` resolves its
fill color to `"red"`. -/
theorem c1_fill_color_chain_witness :
    pFillRed.fill_color = some (Value.str "red") ∧
    (getOkC (processPoint defaultConfig pFillRed) defCircle).fill_color = "red" :=
  ⟨by decide,
   (c1_fill_color_chain defaultConfig pFillRed
      (getOkC (processPoint defaultConfig pFillRed) defCircle)
      (by decide)).1 "red" (by decide) (by decide)⟩

/-- C6: a circle carries hover text exactly when the point's `tooltip` is
present and non-empty, and then the hover text is exactly the tooltip string;
a point with no `tooltip` key (or one set to `None` or the empty string)
produces a circle with no hover text. -/
theorem c6_tooltip_iff (cfg : Config) (p : PointSpec) (c : Circle)
    (h : processPoint cfg p = Except.ok c) :
    (p.tooltip = Option.none → c.tooltip = Option.none) ∧
    (p.tooltip = some Value.none → c.tooltip = Option.none) ∧
    (∀ s : String, p.tooltip = some (Value.str s) →
      ((s ≠ "" → c.tooltip = some s) ∧ (s = "" → c.tooltip = Option.none))) := by
  have htt := (processPoint_ok_inv cfg p c h).2.2.2.2.2.2.2.2.2
  refine ⟨?_, ?_, ?_⟩
  · intro hn
    rw [htt, hn]
    simp [truthy]
  · intro hn
    rw [htt, hn]
    simp [truthy]
  · intro s hs
    constructor
    · intro hne
      rw [htt, hs]
      simp [truthy, pyStr, hne]
    · intro he
      subst he
      rw [htt, hs]
      simp [truthy]

/-- C6 witness: tooltip `"X"` is attached as hover text `"X"`; an absent
tooltip yields a circle without hover text. -/
theorem c6_tooltip_iff_witness :
    (getOkC (processPoint defaultConfig pTooltipX) defCircle).tooltip = some "X" ∧
    (getOkC (processPoint defaultConfig pMinimal12) defCircle).tooltip = Option.none :=
  ⟨((c6_tooltip_iff defaultConfig pTooltipX
      (getOkC (processPoint defaultConfig pTooltipX) defCircle)
      (by decide)).2.2 "X" (by decide)).1 (by decide),
   (c6_tooltip_iff defaultConfig pMinimal12
      (getOkC (processPoint defaultConfig pMinimal12) defCircle)
      (by decide)).1 (by decide)⟩

/-- C8: per-point visual resolution — radius from the point's `radius_m` if
the key is present, else `default_radius_m`; stroke color from the point's
`color` if present, else `default_color`; fill opacity from the point's
`fill_opacity` if present, else `default_fill_opacity`; and every circle is
drawn filled, with the configured shared stroke weight and full (1.0) stroke
opacity. -/
theorem c8_visual_resolution (cfg : Config) (p : PointSpec) (c : Circle)
    (h : processPoint cfg p = Except.ok c) :
    (p.radius_m = Option.none → c.radius = cfg.default_radius_m) ∧
    (∀ q : ℚ, p.radius_m = some (Value.num q) → c.radius = q) ∧
    (p.color = Option.none → c.color = cfg.default_color) ∧
    (∀ s : String, p.color = some (Value.str s) → c.color = s) ∧
    (p.fill_opacity = Option.none → c.fill_opacity = cfg.default_fill_opacity) ∧
    (∀ q : ℚ, p.fill_opacity = some (Value.num q) → c.fill_opacity = q) ∧
    c.weight = cfg.weight ∧ c.opacity = 1 ∧ c.fill = true := by
  obtain ⟨_, _, hrad, hfop, hcol, _, hw, hfill, hop, _⟩ := processPoint_ok_inv cfg p c h
  refine ⟨?_, ?_, ?_, ?_, ?_, ?_, hw, hop, hfill⟩
  · intro hn
    rw [hn] at hrad
    simp [pyFloatE] at hrad
    exact hrad.symm
  · intro q hq
    rw [hq] at hrad
    simp [pyFloatE] at hrad
    exact hrad.symm
  · intro hn
    rw [hn] at hcol
    simpa [pyStr] using hcol
  · intro s hs
    rw [hs] at hcol
    simpa [pyStr] using hcol
  · intro hn
    rw [hn] at hfop
    simp [pyFloatE] at hfop
    exact hfop.symm
  · intro q hq
    rw [hq] at hfop
    simp [pyFloatE] at hfop
    exact hfop.symm

/-- C8 witness: the minimal point draws with the default radius, the shared
stroke weight and full stroke opacity. -/
theorem c8_visual_resolution_witness :
    (getOkC (processPoint defaultConfig pMinimal12) defCircle).radius =
      defaultConfig.default_radius_m ∧
    (getOkC (processPoint defaultConfig pMinimal12) defCircle).weight = defaultConfig.weight ∧
    (getOkC (processPoint defaultConfig pMinimal12) defCircle).opacity = 1 := by
  have h := c8_visual_resolution defaultConfig pMinimal12
    (getOkC (processPoint defaultConfig pMinimal12) defCircle) (by decide)
  exact ⟨h.1 (by decide), h.2.2.2.2.2.2.1, h.2.2.2.2.2.2.2.1⟩

/-- C3: for a successful render of points whose `lat`/`lon` convert to the
numbers given by `latv`/`lonv`, the initial map center is exactly the
arithmetic mean of all latitudes and of all longitudes (exact rational
equality, stronger than the 1e-9 tolerance asked for). -/
theorem c3_center_is_mean (pts : List PointSpec) (cfg : Config) (out : RenderOutput)
    (latv lonv : PointSpec → ℚ)
    (hl : ∀ p ∈ pts, latF p = Except.ok (latv p))
    (ho : ∀ p ∈ pts, lonF p = Except.ok (lonv p))
    (h : render pts cfg = Except.ok out) :
    out.doc.location =
      ((pts.map latv).sum / (pts.length : ℚ), (pts.map lonv).sum / (pts.length : ℚ)) := by
  obtain ⟨hne, cs, sLat, sLon, hF, hA, hB, hout⟩ := render_ok_inv pts cfg out h
  have h1 := sumExcept_ok_map latF latv pts hl
  rw [hA] at h1
  injection h1 with h1
  have h2 := sumExcept_ok_map lonF lonv pts ho
  rw [hB] at h2
  injection h2 with h2
  rw [hout]
  simp [h1, h2]

/-- C3 witness: the two-point input with latitudes 1, 3 and longitudes 2, 6
renders with the mean center. -/
theorem c3_center_is_mean_witness :
    (getOk (render [pMinimal12, pMinimal36] defaultConfig) defOut).doc.location =
      (([pMinimal12, pMinimal36].map fun p => numOf p.lat).sum /
        (([pMinimal12, pMinimal36] : List PointSpec).length : ℚ),
       ([pMinimal12, pMinimal36].map fun p => numOf p.lon).sum /
        (([pMinimal12, pMinimal36] : List PointSpec).length : ℚ)) :=
  c3_center_is_mean [pMinimal12, pMinimal36] defaultConfig
    (getOk (render [pMinimal12, pMinimal36] defaultConfig) defOut)
    (fun p => numOf p.lat) (fun p => numOf p.lon)
    (by decide) (by decide) rfl

/-- C4: when every point sits at the single coordinate `(q, r)`, a successful
render issues no bounds-fit instruction and the initial center `(q, r)` and
configured initial zoom remain in effect. -/
theorem c4_degenerate_no_fit (pts : List PointSpec) (cfg : Config) (out : RenderOutput)
    (q r : ℚ)
    (hl : ∀ p ∈ pts, latF p = Except.ok q)
    (ho : ∀ p ∈ pts, lonF p = Except.ok r)
    (h : render pts cfg = Except.ok out) :
    out.doc.fit_calls = [] ∧ out.doc.location = (q, r) ∧
    out.doc.zoom_start = cfg.initial_zoom := by
  obtain ⟨hne, cs, sLat, sLon, hF, hA, hB, hout⟩ := render_ok_inv pts cfg out h
  have hlats : cs.map (fun c => c.location.1) = pts.map (fun _ => q) :=
    forall2_lats cfg (fun _ => q) pts cs hF hl
  have hlons : cs.map (fun c => c.location.2) = pts.map (fun _ => r) :=
    forall2_lons cfg (fun _ => r) pts cs hF ho
  have hlen : pts.length ≠ 0 := fun hc => hne (List.length_eq_zero.mp hc)
  have hrepne : ∀ c : ℚ, List.replicate pts.length c ≠ [] := by
    intro c hcon
    apply hlen
    simpa using congrArg List.length hcon
  have hminmax : ∀ c : ℚ,
      listMin (List.replicate pts.length c) = listMax (List.replicate pts.length c) := by
    intro c
    rw [listMin_all_eq _ c (hrepne c) (fun x hx => List.eq_of_mem_replicate hx),
        listMax_all_eq _ c (hrepne c) (fun x hx => List.eq_of_mem_replicate hx)]
  have hn : (pts.length : ℚ) ≠ 0 := by
    rw [Ne, Nat.cast_eq_zero, List.length_eq_zero]
    exact hne
  have hsLat : sLat = (pts.length : ℚ) * q := by
    have h1 := sumExcept_ok_map latF (fun _ => q) pts hl
    rw [hA] at h1
    injection h1 with h1
    rw [h1, List.map_const', List.sum_replicate, nsmul_eq_mul]
  have hsLon : sLon = (pts.length : ℚ) * r := by
    have h2 := sumExcept_ok_map lonF (fun _ => r) pts ho
    rw [hB] at h2
    injection h2 with h2
    rw [h2, List.map_const', List.sum_replicate, nsmul_eq_mul]
  rw [hout]
  refine ⟨?_, ?_, rfl⟩
  · simp [hlats, hlons, List.map_const', hminmax]
  · show (sLat / (pts.length : ℚ), sLon / (pts.length : ℚ)) = (q, r)
    rw [hsLat, hsLon, mul_div_cancel_left₀ q hn, mul_div_cancel_left₀ r hn]

/-- C4 witness: two copies of the same point issue no bounds fit and keep
the initial center and zoom. -/
theorem c4_degenerate_no_fit_witness :
    (getOk (render [pMinimal12, pMinimal12] defaultConfig) defOut).doc.fit_calls = [] ∧
    (getOk (render [pMinimal12, pMinimal12] defaultConfig) defOut).doc.location = (1, 2) ∧
    (getOk (render [pMinimal12, pMinimal12] defaultConfig) defOut).doc.zoom_start =
      defaultConfig.initial_zoom :=
  c4_degenerate_no_fit [pMinimal12, pMinimal12] defaultConfig
    (getOk (render [pMinimal12, pMinimal12] defaultConfig) defOut) 1 2
    (by decide) (by decide) rfl

/-- C5: when the points span at least two distinct coordinates, a successful
render issues exactly one bounds-fit instruction, with southwest corner
`(min lat, min lon)`, northeast corner `(max lat, max lon)` and the fixed
`(10, 10)` padding. -/
theorem c5_fit_to_bbox (pts : List PointSpec) (cfg : Config) (out : RenderOutput)
    (latv lonv : PointSpec → ℚ)
    (hl : ∀ p ∈ pts, latF p = Except.ok (latv p))
    (ho : ∀ p ∈ pts, lonF p = Except.ok (lonv p))
    (hspan : ∃ p1 ∈ pts, ∃ p2 ∈ pts, (latv p1, lonv p1) ≠ (latv p2, lonv p2))
    (h : render pts cfg = Except.ok out) :
    out.doc.fit_calls =
      [{ sw := (listMin (pts.map latv), listMin (pts.map lonv))
         ne := (listMax (pts.map latv), listMax (pts.map lonv))
         padding := (10, 10) }] := by
  obtain ⟨hne, cs, sLat, sLon, hF, hA, hB, hout⟩ := render_ok_inv pts cfg out h
  have hlats := forall2_lats cfg latv pts cs hF hl
  have hlons := forall2_lons cfg lonv pts cs hF ho
  obtain ⟨p1, hp1, p2, hp2, hdist⟩ := hspan
  have hcond : (listMin (pts.map latv), listMin (pts.map lonv)) ≠
      (listMax (pts.map latv), listMax (pts.map lonv)) := by
    intro heq
    have hlatmm : listMin (pts.map latv) = listMax (pts.map latv) :=
      congrArg Prod.fst heq
    have hlonmm : listMin (pts.map lonv) = listMax (pts.map lonv) :=
      congrArg Prod.snd heq
    have hallLat : ∀ x ∈ pts.map latv, x = listMin (pts.map latv) := by
      intro x hx
      refine le_antisymm ?_ (listMin_le _ x hx)
      rw [hlatmm]
      exact le_listMax _ x hx
    have hallLon : ∀ x ∈ pts.map lonv, x = listMin (pts.map lonv) := by
      intro x hx
      refine le_antisymm ?_ (listMin_le _ x hx)
      rw [hlonmm]
      exact le_listMax _ x hx
    apply hdist
    have e1 := hallLat (latv p1) (List.mem_map_of_mem latv hp1)
    have e2 := hallLat (latv p2) (List.mem_map_of_mem latv hp2)
    have f1 := hallLon (lonv p1) (List.mem_map_of_mem lonv hp1)
    have f2 := hallLon (lonv p2) (List.mem_map_of_mem lonv hp2)
    rw [e1, f1, e2, f2]
  rw [hout]
  simp [hlats, hlons, hcond]

/-- C5 witness: the two-point input spanning (1,2)–(3,6) fits exactly that
bounding box with the fixed padding. -/
theorem c5_fit_to_bbox_witness :
    (getOk (render [pMinimal12, pMinimal36] defaultConfig) defOut).doc.fit_calls =
      [{ sw := (listMin ([pMinimal12, pMinimal36].map fun p => numOf p.lat),
                listMin ([pMinimal12, pMinimal36].map fun p => numOf p.lon))
         ne := (listMax ([pMinimal12, pMinimal36].map fun p => numOf p.lat),
                listMax ([pMinimal12, pMinimal36].map fun p => numOf p.lon))
         padding := (10, 10) }] :=
  c5_fit_to_bbox [pMinimal12, pMinimal36] defaultConfig
    (getOk (render [pMinimal12, pMinimal36] defaultConfig) defOut)
    (fun p => numOf p.lat) (fun p => numOf p.lon)
    (by decide) (by decide) (by decide) rfl

/-- C7: an input containing a point whose `lat` or `lon` does not convert to
a float (missing key or non-numeric value) makes `render` raise: the raised
error is returned unchanged to the caller and, being an `Except.error`, it
carries no `RenderOutput` — nothing is drawn, no file is saved and no
browser is opened. -/
theorem c7_bad_latlon_raises (pts : List PointSpec) (cfg : Config) (p : PointSpec)
    (hmem : p ∈ pts)
    (hbad : (∀ q : ℚ, latF p ≠ Except.ok q) ∨ (∀ q : ℚ, lonF p ≠ Except.ok q)) :
    ∃ e : Err, render pts cfg = Except.error e := by
  have hne : pts ≠ [] := by
    intro hnil
    subst hnil
    simp at hmem
  have hEmpty : pts.isEmpty = false := by
    cases pts with
    | nil => exact absurd rfl hne
    | cons a l => rfl
  rcases hA : sumExcept latF pts with eA | sLat
  · exact ⟨eA, by simp [render, hEmpty, hA]⟩
  · rcases hbad with hbadlat | hbadlon
    · exfalso
      obtain ⟨q, hq⟩ := sumExcept_ok_elem latF pts sLat hA p hmem
      exact hbadlat q hq
    · rcases hB : sumExcept lonF pts with eB | sLon
      · exact ⟨eB, by simp [render, hEmpty, hA, hB]⟩
      · exfalso
        obtain ⟨q, hq⟩ := sumExcept_ok_elem lonF pts sLon hB p hmem
        exact hbadlon q hq

/-- C7 witness: a one-point input whose `lat` key is missing raises. -/
theorem c7_bad_latlon_raises_witness :
    ∃ e : Err, render [pNoLat] defaultConfig = Except.error e :=
  c7_bad_latlon_raises [pNoLat] defaultConfig pNoLat (by decide)
    (Or.inl (by intro q hq; simp [latF, pNoLat] at hq))

end Script
